import Mathlib

/-!
Verification development for the tripgo-mcp-server response-shaping core:
the polyline/point-in-polygon region lookup, the timezone conversion and
rendering utilities, and the routing / locations / departures formatters.

Numbers are modelled exactly: geographic coordinates and scores as rationals,
epoch times and hash codes as integers.  JavaScript floating point rounding is
not modelled; all claims treated here are structural.
-/

/-- Error values raised inside the geometry pipeline.  A thrown JavaScript
TypeError (indexing into an empty array, reading a field of undefined) is
modelled by typeError; the ring-size validation of the turf polygon helper
(a LinearRing needs 4 or more positions) is modelled by invalidRing. -/
inductive GeoError where
  | typeError
  | invalidRing
deriving DecidableEq

/-- Coordinate record of src/src/tools/tripgo.ts: latitude and longitude in
degrees. -/
structure Coordinate where
  lat : ℚ
  lng : ℚ
deriving DecidableEq

/-- Planar point in GeoJSON axis order, x = longitude and y = latitude, as
built by coordinateInPolygon in src/src/tools/helpers.ts. -/
structure GeoPoint where
  x : ℚ
  y : ℚ
deriving DecidableEq

/-- Reads one varint-coded chunk sequence of the encoded polyline, as in the
decode loop of the mapbox polyline library used by helpers.ts (an external
dependency; modelled from its published algorithm, Google polyline encoding
with precision five).  Returns the accumulated raw value and the remaining
characters.  Reading past the end of the string terminates the chunk, which
matches the JavaScript behaviour where charCodeAt out of range yields NaN,
NaN bitwise-and contributes zero bits and NaN fails the continuation test. -/
def readPolyValue : List Char → Nat → Nat → Nat × List Char
  | [], _, acc => (acc, [])
  | c :: rest, shift, acc =>
    let b := c.toNat - 63
    let acc2 := acc ||| ((b &&& 31) <<< shift)
    if 32 ≤ b then readPolyValue rest (shift + 5) acc2 else (acc2, rest)

/-- Zigzag step of the polyline decoding: the JavaScript expression
result and 1 ? complement of (result shifted right once) : result shifted
right once. -/
def zigzagDecode (n : Nat) : Int :=
  if n &&& 1 = 1 then -(Int.ofNat (n >>> 1)) - 1 else Int.ofNat (n >>> 1)

/-- Main decode loop of the polyline library: alternately reads a latitude
and a longitude delta, accumulates them, and scales by the precision factor
100000.  The fuel argument bounds the iteration count; it starts at the
string length and each iteration consumes at least one character, so the
fuel never runs out before the input does. -/
def decodePolylineLoop : Nat → List Char → Int → Int → List (ℚ × ℚ)
  | 0, _, _, _ => []
  | _ + 1, [], _, _ => []
  | fuel + 1, c :: cs, lat, lng =>
    let r1 := readPolyValue (c :: cs) 0 0
    let r2 := readPolyValue r1.2 0 0
    let lat2 := lat + zigzagDecode r1.1
    let lng2 := lng + zigzagDecode r2.1
    ((lat2 : ℚ) / 100000, (lng2 : ℚ) / 100000) :: decodePolylineLoop fuel r2.2 lat2 lng2

/-- Polyline decoding of an encoded polygon string into (latitude, longitude)
pairs, precision factor 100000, as used by coordinateInPolygon. -/
def polylineDecode (s : String) : List (ℚ × ℚ) :=
  decodePolylineLoop s.length s.data 0 0

/-- Closure step of coordinateInPolygon in helpers.ts: if the first and last
vertex differ the first vertex is appended.  On an empty vertex list the
JavaScript code indexes element zero of an empty array and then reads its
first component, throwing a TypeError, modelled by the error branch. -/
def closeRing : List GeoPoint → Except GeoError (List GeoPoint)
  | [] => Except.error GeoError.typeError
  | p :: ps =>
    let q := (p :: ps).getLast (List.cons_ne_nil p ps)
    if q = p then Except.ok (p :: ps) else Except.ok ((p :: ps) ++ [p])

/-- Boundary test of one ring edge from the turf boolean-point-in-polygon
library (external dependency, modelled from its source): the point is
collinear with the edge from vj to vi and lies within its bounding box. -/
def onBoundary (pt vj vi : GeoPoint) : Bool :=
  decide (pt.y * (vi.x - vj.x) + vi.y * (vj.x - pt.x) + vj.y * (pt.x - vi.x) = 0
    ∧ (vi.x - pt.x) * (vj.x - pt.x) ≤ 0
    ∧ (vi.y - pt.y) * (vj.y - pt.y) ≤ 0)

/-- Ray-crossing test of one ring edge from the turf library: the horizontal
ray from the point crosses the open edge from vj to vi. -/
def crossesRay (pt vj vi : GeoPoint) : Bool :=
  decide (((vi.y > pt.y) ≠ (vj.y > pt.y))
    ∧ pt.x < (vj.x - vi.x) * (pt.y - vi.y) / (vj.y - vi.y) + vi.x)

/-- Edge list of a ring as iterated by the turf inRing loop: each vertex
paired with its predecessor, the first vertex paired with the last. -/
def ringEdges (ring : List GeoPoint) : List (GeoPoint × GeoPoint) :=
  match ring.getLast? with
  | none => []
  | some l => (l :: ring.dropLast).zip ring

/-- Loop body of turf inRing with ignoreBoundary false: a boundary hit
returns true immediately, otherwise each ray crossing flips the parity. -/
def inRingGo (pt : GeoPoint) : List (GeoPoint × GeoPoint) → Bool → Bool
  | [], acc => acc
  | e :: es, acc =>
    if onBoundary pt e.1 e.2 then true
    else inRingGo pt es (Bool.xor acc (crossesRay pt e.1 e.2))

/-- Any-edge boundary hit of an edge list, the early-return disjunct of the
inRing loop. -/
def boundaryHit (pt : GeoPoint) (es : List (GeoPoint × GeoPoint)) : Bool :=
  es.any (fun e => onBoundary pt e.1 e.2)

/-- Crossing parity of an edge list, the accumulated flips of the inRing
loop. -/
def crossParity (pt : GeoPoint) (es : List (GeoPoint × GeoPoint)) : Bool :=
  es.foldr (fun e b => Bool.xor (crossesRay pt e.1 e.2) b) false

/-- Deduplication step of turf inRing: when the first and last ring vertex
coincide the last one is dropped before iterating. -/
def dedupRing (ring : List GeoPoint) : List GeoPoint :=
  match ring, ring.getLast? with
  | p :: _, some l => if p = l then ring.dropLast else ring
  | _, _ => ring

/-- Containment of a point in a single ring, turf inRing with ignoreBoundary
false, so boundary points count as inside. -/
def inRing (pt : GeoPoint) (ring : List GeoPoint) : Bool :=
  inRingGo pt (ringEdges (dedupRing ring)) false

/-- Containment of a point in a polygon with a single outer ring and no
holes, as turf booleanPointInPolygon computes it for the polygon built by
coordinateInPolygon (no bounding box present on a freshly built feature). -/
def booleanPointInPolygon (pt : GeoPoint) (ring : List GeoPoint) : Bool :=
  inRing pt ring

/-- Axis swap of a decoded (latitude, longitude) pair into the GeoJSON
(x = longitude, y = latitude) point the code hands to turf. -/
def swapToGeo (p : ℚ × ℚ) : GeoPoint :=
  GeoPoint.mk p.2 p.1

/-- Containment test on a prepared vertex list: synthesize ring closure,
validate the ring size as the turf polygon helper does (four or more
positions in a LinearRing), and run the point-in-polygon test. -/
def ringTest (pt : GeoPoint) (coords : List GeoPoint) : Except GeoError Bool :=
  match closeRing coords with
  | Except.error e => Except.error e
  | Except.ok ring =>
    if ring.length < 4 then Except.error GeoError.invalidRing
    else Except.ok (booleanPointInPolygon pt ring)

/-- Containment pipeline of coordinateInPolygon after decoding: swap each
(latitude, longitude) pair into (x = longitude, y = latitude), then run the
ring test. -/
def coordinateInPolygonPts (c : Coordinate) (pts : List (ℚ × ℚ)) :
    Except GeoError Bool :=
  ringTest (GeoPoint.mk c.lng c.lat) (pts.map swapToGeo)

/-- Function coordinateInPolygon of src/src/tools/helpers.ts: decode the
encoded polygon, then run the containment pipeline. -/
def coordinateInPolygon (c : Coordinate) (encodedPolygon : String) :
    Except GeoError Bool :=
  coordinateInPolygonPts c (polylineDecode encodedPolygon)

/-- Region record of the regions.json response: name, encoded coverage
polygon and IANA timezone name. -/
structure Region where
  name : String
  polygon : String
  timezone : String
deriving DecidableEq

/-- Function getRegionForCoordinate of src/src/tools/tripgo.ts: the
JavaScript find over the region list, returning the first region whose
polygon contains the coordinate; a containment error propagates. -/
def getRegionForCoordinate (c : Coordinate) :
    List Region → Except GeoError (Option Region)
  | [] => Except.ok none
  | r :: rs =>
    match coordinateInPolygon c r.polygon with
    | Except.error e => Except.error e
    | Except.ok true => Except.ok (some r)
    | Except.ok false => getRegionForCoordinate c rs

/-- Containment reading of one region used to state the resolver claims:
true when the containment test succeeds and reports the coordinate inside
the region polygon. -/
def regionContains (c : Coordinate) (r : Region) : Bool :=
  match coordinateInPolygon c r.polygon with
  | Except.ok b => b
  | Except.error _ => false

/-- Display timezone chosen by handleRouting from the region lookup result:
the matched region timezone when present and non-empty (JavaScript
truthiness of the or-expression), the UTC fallback otherwise. -/
def routingDisplayTimezoneName (c : Coordinate) (regions : List Region) :
    Except GeoError String :=
  (getRegionForCoordinate c regions).map fun o =>
    match o with
    | some r => if r.timezone = "" then "UTC" else r.timezone
    | none => "UTC"

/-- Decidable equality for Except results, by cases on both values. -/
instance {ε α : Type} [DecidableEq ε] [DecidableEq α] :
    DecidableEq (Except ε α)
  | Except.ok a, Except.ok b =>
    if h : a = b then isTrue (by rw [h]) else isFalse (by simp [h])
  | Except.ok _, Except.error _ => isFalse (by simp)
  | Except.error _, Except.ok _ => isFalse (by simp)
  | Except.error e, Except.error f =>
    if h : e = f then isTrue (by rw [h]) else isFalse (by simp [h])

/-- Timezone model.  Modelled from the spec: the host IANA timezone database
consulted through toLocaleString and Intl.DateTimeFormat is external to the
repository; a zone is modelled as a base UTC offset in seconds together with
a list of transitions, each a pair of the UTC instant at which it takes
effect and the new offset, listed in chronological order. -/
structure Timezone where
  baseOffset : Int
  transitions : List (Int × Int)
deriving DecidableEq

/-- Offset in seconds of the zone in force at a UTC instant: the offset
introduced by the last transition at or before the instant, the base offset
when no transition has occurred yet. -/
def offsetAt (tz : Timezone) (t : Int) : Int :=
  tz.transitions.foldl (fun acc p => if p.1 ≤ t then p.2 else acc) tz.baseOffset

/-- Function zonedTimeToUtc of src/src/tools/helpers.ts, at the level of
epoch seconds.  The naive local timestamp is represented by the epoch value
of its digits read as UTC (the JavaScript new Date of the string with a Z
suffix appended); the code then measures the zone offset at that instant by
formatting it in the target zone and in UTC and subtracting, and applies the
reverse offset.  Note the offset is taken at the naive instant itself, not
at the instant finally returned. -/
def zonedTimeToUtc (tz : Timezone) (naive : Int) : Int :=
  naive - offsetAt tz naive

/-- Wall-clock epoch value displayed by a UTC instant in a zone: the instant
shifted by the zone offset in force at it.  This is the digit content that
utcToZonedTime and toISOStringInTimezone read off through the formatter. -/
def wallSecondsInZone (tz : Timezone) (t : Int) : Int :=
  t + offsetAt tz t

/-- Civil date from a day count since the Unix epoch, the standard
days-to-date conversion used to render the digit fields the Intl formatter
produces.  Returns (year, month, day). -/
def civilFromDays (z0 : Int) : Int × Int × Int :=
  let z := z0 + 719468
  let era := Int.fdiv z 146097
  let doe := (z - era * 146097).toNat
  let yoe := (doe - doe / 1460 + doe / 36524 - doe / 146096) / 365
  let y : Int := Int.ofNat yoe + era * 400
  let doy := doe - (365 * yoe + yoe / 4 - yoe / 100)
  let mp := (5 * doy + 2) / 153
  let d := doy - (153 * mp + 2) / 5 + 1
  let m : Int := Int.ofNat mp + (if mp < 10 then 3 else -9)
  (y + (if m ≤ 2 then 1 else 0), m, Int.ofNat d)

/-- Day count since the Unix epoch of a civil date, inverse of
civilFromDays; used to state naive timestamps by their digit fields. -/
def daysFromCivil (y0 m d : Int) : Int :=
  let y := y0 - (if m ≤ 2 then 1 else 0)
  let era := Int.fdiv y 400
  let yoe := (y - era * 400).toNat
  let mp := ((m + 9).emod 12).toNat
  let doy := (153 * mp + 2) / 5 + (d - 1).toNat
  let doe := yoe * 365 + yoe / 4 - yoe / 100 + doy
  era * 146097 + Int.ofNat doe - 719468

/-- Epoch seconds of a civil date and time of day, the value new Date
produces for the matching ISO string with a Z suffix. -/
def civilToSeconds (y m d hh mm ss : Int) : Int :=
  daysFromCivil y m d * 86400 + hh * 3600 + mm * 60 + ss

/-- Civil fields of an epoch value: (year, month, day, hour, minute,
second). -/
def civilOfSeconds (t : Int) : Int × Int × Int × Int × Int × Int :=
  let days := Int.fdiv t 86400
  let sod := (t - days * 86400).toNat
  let ymd := civilFromDays days
  (ymd.1, ymd.2.1, ymd.2.2,
    Int.ofNat (sod / 3600), Int.ofNat (sod % 3600 / 60), Int.ofNat (sod % 60))

/-- Decimal digit character of the last digit of a value. -/
def digitChar (n : Nat) : Char :=
  Char.ofNat (48 + n % 10)

/-- Two-digit zero-padded rendering, the 2-digit Intl field style. -/
def pad2 (n : Nat) : String :=
  String.mk [digitChar (n / 10), digitChar n]

/-- Unpadded decimal rendering of the digits of a value, accumulator form;
the fuel starts at the value itself, which bounds the digit count. -/
def natDigitsAux : Nat → Nat → List Char → List Char
  | 0, _, acc => acc
  | _ + 1, 0, acc => acc
  | fuel + 1, n, acc => natDigitsAux fuel (n / 10) (digitChar n :: acc)

/-- Unpadded decimal rendering of a value, the numeric Intl year style. -/
def natToDecimal (n : Nat) : String :=
  if n = 0 then "0" else String.mk (natDigitsAux n n [])

/-- Year rendering of the Intl numeric year field. -/
def yearString (y : Int) : String :=
  if y < 0 then "-" ++ natToDecimal (-y).toNat else natToDecimal y.toNat

/-- Localized GMT offset rendering of the Intl longOffset timezone name:
GMT followed by the signed hours and minutes, plain GMT at offset zero. -/
def gmtOffsetString (off : Int) : String :=
  if off = 0 then "GMT"
  else if 0 < off then
    "GMT+" ++ pad2 (Int.fdiv off 3600).toNat ++ ":" ++ pad2 ((Int.emod off 3600) / 60).toNat
  else
    "GMT-" ++ pad2 (Int.fdiv (-off) 3600).toNat ++ ":" ++ pad2 ((Int.emod (-off) 3600) / 60).toNat

/-- Date and time digit rendering shared by the ISO producers. -/
def civilDigitsString (t : Int) : String :=
  let c := civilOfSeconds t
  yearString c.1 ++ "-" ++ pad2 c.2.1.toNat ++ "-" ++ pad2 c.2.2.1.toNat ++ "T"
    ++ pad2 c.2.2.2.1.toNat ++ ":" ++ pad2 c.2.2.2.2.1.toNat ++ ":" ++ pad2 c.2.2.2.2.2.toNat

/-- Function toISOStringInTimezone of src/src/tools/helpers.ts: format the
instant through the Intl formatter pinned to the zone with 2-digit fields
and the longOffset timezone name, then concatenate the parts in ISO shape.
The digits shown are the zone wall clock of the instant and the trailing
part is the localized GMT offset in force at the instant. -/
def toISOStringInTimezone (tz : Timezone) (t : Int) : String :=
  civilDigitsString (wallSecondsInZone tz t) ++ gmtOffsetString (offsetAt tz t)

/-- JavaScript Date toISOString of a whole-second instant: UTC digits with a
milliseconds field of zero and a Z suffix. -/
def jsToISOString (t : Int) : String :=
  civilDigitsString t ++ ".000Z"

/-- Timezone value with no transitions and offset zero, the UTC behaviour
of the formatting helpers. -/
def utcTimezone : Timezone :=
  Timezone.mk 0 []

/-- Australia/Sydney during 2025, modelled from the spec and the IANA
database the host consults: daylight saving (UTC+11) at the start of the
year, ending 2025-04-05T16:00:00Z (03:00 local) and resuming
2025-10-04T16:00:00Z (02:00 local). -/
def australiaSydney2025 : Timezone :=
  Timezone.mk 39600
    [(civilToSeconds 2025 4 5 16 0 0, 36000),
     (civilToSeconds 2025 10 4 16 0 0, 39600)]

/-- Error values of the tool handlers: an upstream-reported failure carrying
the thrown message, or a JavaScript TypeError raised while formatting. -/
inductive TgError where
  | upstream (msg : String)
  | typeError
deriving DecidableEq

/-- ModeInfo record of the routing response; only the fields the formatter
reads are kept (alt is the human mode label), the optional colour and
operator decorations are never consulted. -/
structure ModeInfo where
  identifier : String
  alt : String
  localIcon : String
deriving DecidableEq

/-- Location record of the upstream payloads.  JavaScript objects are
structurally typed, so the plain location and the stop location variants are
merged into one record with optional stop fields. -/
structure Location where
  lat : ℚ
  lng : ℚ
  address : Option String := none
  name : Option String := none
  code : Option String := none
  timezone : Option String := none
  region : Option String := none
  services : Option (List String) := none
deriving DecidableEq

/-- SegmentReference record of a trip: the time-bounded reference pointing
at a shared segment template by hash code. -/
structure SegmentReference where
  segmentTemplateHashCode : Int
  startTime : Int
  endTime : Int
  serviceNumber : Option String := none
  serviceName : Option String := none
deriving DecidableEq

/-- SegmentTemplate record of the routing response; fromLoc and toLoc embed
the fields named from and to in the source, which are reserved words here. -/
structure SegmentTemplate where
  hashCode : Int
  modeInfo : ModeInfo
  fromLoc : Option Location := none
  toLoc : Option Location := none
  action : Option String := none
deriving DecidableEq

/-- Trip record of the routing response (current revision, which carries an
id). -/
structure Trip where
  id : String
  arrive : Int
  depart : Int
  moneyCost : Option ℚ := none
  currencySymbol : Option String := none
  caloriesCost : Option ℚ := none
  carbonCost : Option ℚ := none
  segments : List SegmentReference := []
  weightedScore : ℚ
  saveURL : Option String := none
deriving DecidableEq

/-- TripGroup record: the alternatives for one conceptual journey. -/
structure TripGroup where
  trips : List Trip
deriving DecidableEq

/-- RoutingResponse record: optional upstream error, optional group list and
optional shared segment template list. -/
structure RoutingResponse where
  error : Option String := none
  groups : Option (List TripGroup) := none
  segmentTemplates : Option (List SegmentTemplate) := none
deriving DecidableEq

/-- Formatted segment produced by handleRouting. -/
structure FormattedSegment where
  mode : String
  duration : Int
  action : Option String
  serviceName : Option String
  serviceNumber : Option String
  fromAddress : Option String
  toAddress : Option String
deriving DecidableEq

/-- Formatted trip produced by handleRouting. -/
structure FormattedTrip where
  id : String
  depart : String
  arrive : String
  totalDuration : Int
  segments : List FormattedSegment
  cost : Option ℚ
  currency : Option String
  caloriesCost : Option ℚ
  carbonCost : Option ℚ
  score : ℚ
  url : Option String
deriving DecidableEq

/-- JavaScript truthiness of an optional string: absent and empty are both
falsy. -/
def strTruthy : Option String → Bool
  | none => false
  | some s => s ≠ ""

/-- Map with exceptions over a list, the semantics of a JavaScript map
callback that can throw: the first thrown error aborts the whole map. -/
def mapThrow {α β : Type} (f : α → Except TgError β) : List α → Except TgError (List β)
  | [] => Except.ok []
  | a :: as =>
    match f a with
    | Except.error e => Except.error e
    | Except.ok b =>
      match mapThrow f as with
      | Except.error e => Except.error e
      | Except.ok bs => Except.ok (b :: bs)

/-- Insertion step of a stable ascending sort with a boolean comparison:
the element is placed before the first entry it compares less-or-equal to,
so entries with equal keys keep their original relative order. -/
def insertSorted {α : Type} (le : α → α → Bool) (x : α) : List α → List α
  | [] => [x]
  | y :: ys => if le x y then x :: y :: ys else y :: insertSorted le x ys

/-- Stable insertion sort with a boolean comparison, the model of the
JavaScript Array sort with a numeric comparator (stable since ES2019). -/
def sortStable {α : Type} (le : α → α → Bool) : List α → List α
  | [] => []
  | x :: xs => insertSorted le x (sortStable le xs)

/-- Stable ascending sort by a rational key. -/
def sortByKey {α : Type} (key : α → ℚ) : List α → List α :=
  sortStable (fun a b => decide (key a ≤ key b))

/-- Trip sort of handleRouting: the comparator a minus b on weightedScore,
an ascending stable sort by weighted score. -/
def sortTripsByScore (ts : List Trip) : List Trip :=
  sortByKey (fun t => t.weightedScore) ts

/-- Intermediate group record of handleRouting: the kept trips and the
representative score. -/
structure SelGroup where
  trips : List Trip
  score : ℚ
deriving DecidableEq

/-- Per-group step of handleRouting: sort the trips ascending by weighted
score, keep the first two, and read the representative score off the first
sorted trip.  On a group with no trips the JavaScript code reads the
weightedScore field of element zero of an empty array, a TypeError. -/
def routingSelectGroup (g : TripGroup) : Except TgError SelGroup :=
  match sortTripsByScore g.trips with
  | [] => Except.error TgError.typeError
  | t :: ts => Except.ok (SelGroup.mk ((t :: ts).take 2) t.weightedScore)

/-- Group ranking of handleRouting: stable sort of the per-group records
ascending by representative score. -/
def sortSelGroups (gs : List SelGroup) : List SelGroup :=
  sortByKey (fun g => g.score) gs

/-- Template lookup of the segment formatter: find by exact hash code in the
shared template list when that list is present. -/
def findTemplate (templates : Option (List SegmentTemplate)) (h : Int) :
    Option SegmentTemplate :=
  match templates with
  | none => none
  | some ts => ts.find? (fun t => t.hashCode = h)

/-- Segment formatter of handleRouting: resolve the template by hash code,
fall back to the Unknown Mode label when the template is missing or its alt
label is empty (JavaScript or-fallback), and compute the duration in whole
minutes with Math.floor of the span over sixty. -/
def formatSegment (templates : Option (List SegmentTemplate))
    (seg : SegmentReference) : FormattedSegment :=
  let tmpl := findTemplate templates seg.segmentTemplateHashCode
  { mode :=
      match tmpl with
      | some t => if t.modeInfo.alt = "" then "Unknown Mode" else t.modeInfo.alt
      | none => "Unknown Mode"
    duration := Int.fdiv (seg.endTime - seg.startTime) 60
    action := tmpl.bind (fun t => t.action)
    serviceName := seg.serviceName
    serviceNumber := seg.serviceNumber
    fromAddress := tmpl.bind (fun t => t.fromLoc.bind (fun l => l.address))
    toAddress := tmpl.bind (fun t => t.toLoc.bind (fun l => l.address)) }

/-- Trip formatter of handleRouting: per-segment formatting, depart and
arrive rendered in the resolved display timezone, total duration from the
arrive and depart instants with Math.floor of the span over sixty. -/
def formatTrip (tz : Timezone) (templates : Option (List SegmentTemplate))
    (t : Trip) : FormattedTrip :=
  { id := t.id
    depart := toISOStringInTimezone tz t.depart
    arrive := toISOStringInTimezone tz t.arrive
    totalDuration := Int.fdiv (t.arrive - t.depart) 60
    segments := t.segments.map (formatSegment templates)
    cost := t.moneyCost
    currency := t.currencySymbol
    caloriesCost := t.caloriesCost
    carbonCost := t.carbonCost
    score := t.weightedScore
    url := t.saveURL }

/-- Formatting stage of handleRouting after the upstream error check: map
each group through the selection step (a thrown TypeError aborts), rank the
groups, slice to the caller limit, and flatten the kept trips through the
trip formatter. -/
def handleRoutingFormat (tz : Timezone) (data : RoutingResponse) (limit : Nat) :
    Except TgError (List FormattedTrip) :=
  match data.groups with
  | none => Except.ok []
  | some gs =>
    match mapThrow routingSelectGroup gs with
    | Except.error e => Except.error e
    | Except.ok sel =>
      Except.ok (((sortSelGroups sel).take limit).flatMap
        (fun g => g.trips.map (formatTrip tz data.segmentTemplates)))

/-- Response shaping of handleRouting in src/src/tools/tripgo.ts: a truthy
upstream error field aborts with the routing failure message, otherwise the
groups are selected, ranked, sliced and formatted. -/
def handleRoutingCore (tz : Timezone) (data : RoutingResponse) (limit : Nat) :
    Except TgError (List FormattedTrip) :=
  match data.error with
  | some e =>
    if e = "" then handleRoutingFormat tz data limit
    else Except.error (TgError.upstream ("Routing failed: " ++ e))
  | none => handleRoutingFormat tz data limit

/-- SaveTripResponse record of the save-trip endpoint. -/
structure SaveTripResponse where
  error : Option String := none
  url : String
deriving DecidableEq

/-- Response shaping of handleSaveTrip: a truthy upstream error field aborts
with the routing failure message (the source reuses that prefix), otherwise
the persisted url is returned. -/
def handleSaveTripCore (data : SaveTripResponse) : Except TgError String :=
  match data.error with
  | some e =>
    if e = "" then Except.ok data.url
    else Except.error (TgError.upstream ("Routing failed: " ++ e))
  | none => Except.ok data.url

/-- LocationGroup record of the locations response (current revision):
per-category optional lists. -/
structure LocationGroup where
  key : String
  hashCode : Int
  stops : Option (List Location) := none
  bikePods : Option (List Location) := none
  carParks : Option (List Location) := none
  carPods : Option (List Location) := none
  carRentals : Option (List Location) := none
  freeFloating : Option (List Location) := none
deriving DecidableEq

/-- LocationsResponse record: optional upstream error and optional group
list. -/
structure LocationsResponse where
  error : Option String := none
  groups : Option (List LocationGroup) := none
deriving DecidableEq

/-- Formatted location entry produced by handleLocationsSearch; the stop
category omits the address field, the other categories carry it with an
empty-string default. -/
structure FormattedLocation where
  lat : ℚ
  lng : ℚ
  name : String
  address : Option String
  locType : String
  code : Option String
  region : Option String
  services : Option (List String)
deriving DecidableEq

/-- Stop entry of the locations formatter. -/
def formatStopLocation (l : Location) : FormattedLocation :=
  FormattedLocation.mk l.lat l.lng (l.name.getD "") none "stop" l.code l.region l.services

/-- Non-stop entry of the locations formatter, tagged with its category. -/
def formatPodLocation (tag : String) (l : Location) : FormattedLocation :=
  FormattedLocation.mk l.lat l.lng (l.name.getD "") (some (l.address.getD "")) tag
    l.code l.region none

/-- Per-group flattening of handleLocationsSearch: categories in source
order, entries in upstream order within each category. -/
def locationEntries (g : LocationGroup) : List FormattedLocation :=
  (g.stops.getD []).map formatStopLocation
    ++ (g.bikePods.getD []).map (formatPodLocation "bikePod")
    ++ (g.carParks.getD []).map (formatPodLocation "carPark")
    ++ (g.carPods.getD []).map (formatPodLocation "carPod")
    ++ (g.carRentals.getD []).map (formatPodLocation "carRental")
    ++ (g.freeFloating.getD []).map (formatPodLocation "freeFloating")

/-- Response shaping of handleLocationsSearch: a truthy upstream error field
aborts with the locations failure message, otherwise the groups are
flattened in order.  The group-count echo of the source output is a
projection of the same data and is not repeated here. -/
def handleLocationsCore (data : LocationsResponse) :
    Except TgError (List FormattedLocation) :=
  match data.error with
  | some e =>
    if e = "" then Except.ok ((data.groups.getD []).flatMap locationEntries)
    else Except.error (TgError.upstream ("Locations search failed: " ++ e))
  | none => Except.ok ((data.groups.getD []).flatMap locationEntries)

/-- Vehicle position record of a realtime vehicle. -/
structure VehicleLocation where
  lat : ℚ
  lng : ℚ
  bearing : Option ℚ := none
deriving DecidableEq

/-- RealtimeVehicle record of a departures service. -/
structure RealtimeVehicle where
  lastUpdate : Int
  id : String
  label : Option String := none
  location : Option VehicleLocation := none
  occupancy : Option String := none
  wifi : Option Bool := none
deriving DecidableEq

/-- ServiceInfo record of a departures embarkation stop; colour and icon
decorations the formatter never reads are omitted. -/
structure ServiceInfo where
  startTime : Int
  serviceTripID : String
  serviceName : Option String := none
  serviceDirection : Option String := none
  serviceNumber : Option String := none
  operator : Option String := none
  mode : Option String := none
  wheelchairAccessible : Option Bool := none
  realTimeStatus : Option String := none
  realtimeVehicle : Option RealtimeVehicle := none
  realTimeDeparture : Option Int := none
deriving DecidableEq

/-- EmbarkationStop record of the departures response. -/
structure EmbarkationStop where
  stopCode : String
  wheelchairAccessible : Option Bool := none
  services : Option (List ServiceInfo) := none
deriving DecidableEq

/-- DeparturesResponse record: optional upstream error, optional embarkation
stops and the separately returned stops list. -/
structure DeparturesResponse where
  error : Option String := none
  embarkationStops : Option (List EmbarkationStop) := none
  stops : Option (List Location) := none
deriving DecidableEq

/-- Service sub-record of a formatted departure entry (current revision):
id, name, number, direction, operator and mode only. -/
structure FormattedDepartureService where
  id : String
  name : Option String
  number : Option String
  direction : Option String
  operator : Option String
  mode : Option String
deriving DecidableEq

/-- Vehicle sub-record of a formatted departure entry. -/
structure FormattedVehicle where
  id : String
  label : Option String
  lastUpdate : String
  location : Option VehicleLocation
  occupancy : Option String
  wifi : Option Bool
deriving DecidableEq

/-- Formatted departure entry produced by handleDepartures in the current
revision: it carries no stop code and no stop name. -/
structure FormattedDeparture where
  scheduledDeparture : String
  realTimeDeparture : Option String
  realTime : Bool
  service : FormattedDepartureService
  wheelchairAccessible : Option Bool
  vehicle : Option FormattedVehicle
deriving DecidableEq

/-- Per-service formatter of handleDepartures (current revision).  A
realTimeDeparture of zero is falsy in JavaScript and renders as absent; the
realTime flag is the strict equality of realTimeStatus with IS_REAL_TIME. -/
def formatService (s : ServiceInfo) : FormattedDeparture :=
  { scheduledDeparture := jsToISOString s.startTime
    realTimeDeparture :=
      match s.realTimeDeparture with
      | some t => if t = 0 then none else some (jsToISOString t)
      | none => none
    realTime := s.realTimeStatus = some "IS_REAL_TIME"
    service := FormattedDepartureService.mk s.serviceTripID s.serviceName
      s.serviceNumber s.serviceDirection s.operator s.mode
    wheelchairAccessible := s.wheelchairAccessible
    vehicle := s.realtimeVehicle.map (fun v =>
      FormattedVehicle.mk v.id v.label (jsToISOString v.lastUpdate) v.location
        v.occupancy v.wifi) }

/-- Response shaping of handleDepartures in the current revision: a truthy
upstream error field aborts with the departures failure message, otherwise
every service of every embarkation stop is formatted in order.  The source
also looks the stop code up in the separately returned stops list, but the
current revision never uses the result, so the entries are independent of
the stops field. -/
def handleDeparturesCore (data : DeparturesResponse) :
    Except TgError (List FormattedDeparture) :=
  match data.error with
  | some e =>
    if e = "" then
      Except.ok ((data.embarkationStops.getD []).flatMap
        (fun emb => (emb.services.getD []).map formatService))
    else Except.error (TgError.upstream ("Departures search failed: " ++ e))
  | none =>
    Except.ok ((data.embarkationStops.getD []).flatMap
      (fun emb => (emb.services.getD []).map formatService))

/-- Time query parameters of handleRouting: a truthy departureTime appends
departAfter, otherwise a truthy arrivalTime appends arriveBefore.  The
formatting collaborator fmt stands for formatDateForTripGo applied at the
resolved timezone. -/
def routingTimeParams (fmt : String → Int)
    (departureTime arrivalTime : Option String) : List (String × Int) :=
  if strTruthy departureTime then
    [("departAfter", fmt (departureTime.getD ""))]
  else if strTruthy arrivalTime then
    [("arriveBefore", fmt (arrivalTime.getD ""))]
  else []

/-- Representative score of a pruned trip list as the specification words
it: the score of its best (first, lowest) trip. -/
def repScore : List Trip → ℚ
  | [] => 0
  | t :: _ => t.weightedScore

/-- Kept trips of one group: the trips sorted ascending by weighted score,
first two retained. -/
def bestTwoTrips (g : TripGroup) : List Trip :=
  (sortTripsByScore g.trips).take 2

/-- Selection policy exactly as the specification states it: stably sort
each group ascending by weighted score, keep at most the first two trips of
each group, rank the groups ascending by their best trip score with a
stable sort, keep the first limit groups, and flatten in group order with
the within-group order preserved. -/
def specSelectTrips (groups : List TripGroup) (limit : Nat) : List Trip :=
  let pruned := groups.map (fun g => (sortByKey (fun t => t.weightedScore) g.trips).take 2)
  let ranked := sortByKey repScore pruned
  (ranked.take limit).flatten

/-- Decoration of a pruned trip list with its representative score, the
shape of the intermediate records handleRouting builds. -/
def decorateGroup (ts : List Trip) : SelGroup :=
  SelGroup.mk ts (repScore ts)

/-- Trip value with the fields the selection claims exercise; segments stay
empty and times are fixed so only identity and score vary. -/
def mkTrip (id : String) (score : ℚ) : Trip :=
  { id := id, arrive := 600, depart := 0, weightedScore := score }

/-- Three trip groups with representative scores five, one and three, the
concrete example of the selection claim. -/
def exGroups : List TripGroup :=
  [TripGroup.mk [mkTrip "a1" 5, mkTrip "a2" 7],
   TripGroup.mk [mkTrip "b1" 9, mkTrip "b2" 1, mkTrip "b3" 2],
   TripGroup.mk [mkTrip "c1" 3, mkTrip "c2" 4]]

/-- Routing response holding the three example groups and no templates. -/
def exRoutingResponse : RoutingResponse :=
  { groups := some exGroups }

/-- Routing response whose first group has no trips. -/
def exEmptyGroupResponse : RoutingResponse :=
  { groups := some [TripGroup.mk [], TripGroup.mk [mkTrip "x" 1]] }

/-- Region whose encoded polygon decodes to a single vertex, a well-formed
polyline that cannot form a LinearRing. -/
def exLineRegion : Region :=
  Region.mk "Point" "AA" "Australia/Sydney"

/-- Region carrying the canonical polyline documentation example, a
three-vertex triangle over the north-western United States. -/
def exTriangleRegion : Region :=
  Region.mk "Triangle" "_p~iF~ps|U_ulLnnqC_mqNvxq`@" "America/Los_Angeles"

/-- Coordinate inside the triangle region. -/
def exInsideTriangle : Coordinate :=
  Coordinate.mk 40 (-121)

/-- Departure service example: a scheduled departure with no realtime
overlay. -/
def exService : ServiceInfo :=
  { startTime := 1759600800, serviceTripID := "svc-1",
    serviceNumber := some "T1" }

/-- Departures response for stop code S1 whose stops list does hold S1 with
a human-readable name. -/
def exDeparturesWithStops : DeparturesResponse :=
  { embarkationStops := some [EmbarkationStop.mk "S1" none (some [exService])],
    stops := some [{ lat := -33, lng := 151, code := some "S1",
                     name := some "Central Station" }] }

/-- Same departures response with the stops list removed. -/
def exDeparturesNoStops : DeparturesResponse :=
  { embarkationStops := some [EmbarkationStop.mk "S1" none (some [exService])] }

/-- Membership in the insertion step: the inserted element joins the list. -/
theorem mem_insertSorted {α : Type} (le : α → α → Bool) (x a : α) :
    ∀ l : List α, a ∈ insertSorted le x l ↔ a = x ∨ a ∈ l
  | [] => by simp [insertSorted]
  | y :: ys => by
    by_cases h : le x y = true
    · simp [insertSorted, h]
    · simp only [insertSorted, if_neg h, List.mem_cons, mem_insertSorted le x a ys]
      tauto

/-- Length of the insertion step. -/
theorem length_insertSorted {α : Type} (le : α → α → Bool) (x : α) :
    ∀ l : List α, (insertSorted le x l).length = l.length + 1
  | [] => rfl
  | y :: ys => by
    by_cases h : le x y = true
    · simp [insertSorted, h]
    · simp [insertSorted, h, length_insertSorted le x ys]

/-- Length of the stable sort. -/
theorem length_sortStable {α : Type} (le : α → α → Bool) :
    ∀ l : List α, (sortStable le l).length = l.length
  | [] => rfl
  | x :: xs => by
    simp [sortStable, length_insertSorted, length_sortStable le xs]

/-- Insertion commutes with mapping when the comparison is pulled back. -/
theorem insertSorted_map {α β : Type} (le : β → β → Bool) (f : α → β) (x : α) :
    ∀ l : List α,
      insertSorted le (f x) (l.map f)
        = (insertSorted (fun a b => le (f a) (f b)) x l).map f
  | [] => rfl
  | y :: ys => by
    by_cases h : le (f x) (f y) = true
    · simp [insertSorted, h]
    · simp [insertSorted, h, insertSorted_map le f x ys]

/-- Stable sort commutes with mapping when the comparison is pulled back. -/
theorem sortStable_map {α β : Type} (le : β → β → Bool) (f : α → β) :
    ∀ l : List α,
      sortStable le (l.map f) = (sortStable (fun a b => le (f a) (f b)) l).map f
  | [] => rfl
  | x :: xs => by
    simp only [List.map_cons, sortStable, sortStable_map le f xs]
    exact insertSorted_map le f x (sortStable _ xs)

/-- Keyed stable sort commutes with mapping when the key is composed. -/
theorem sortByKey_map {α β : Type} (key : β → ℚ) (f : α → β) (l : List α) :
    sortByKey key (l.map f) = (sortByKey (fun a => key (f a)) l).map f :=
  sortStable_map (fun a b => decide (key a ≤ key b)) f l

/-- Sortedness of the insertion step under the weak ascending key order. -/
theorem pairwise_insertSorted {α : Type} (key : α → ℚ) (x : α) :
    ∀ l : List α, List.Pairwise (fun a b => key a ≤ key b) l →
      List.Pairwise (fun a b => key a ≤ key b)
        (insertSorted (fun a b => decide (key a ≤ key b)) x l)
  | [], _ => by simp [insertSorted]
  | y :: ys, h => by
    rcases List.pairwise_cons.mp h with ⟨hy, hys⟩
    by_cases hxy : decide (key x ≤ key y) = true
    · simp only [insertSorted, if_pos hxy]
      refine List.pairwise_cons.mpr ⟨?_, h⟩
      intro b hb
      rcases List.mem_cons.mp hb with rfl | hb
      · exact of_decide_eq_true hxy
      · exact le_trans (of_decide_eq_true hxy) (hy b hb)
    · simp only [insertSorted, if_neg hxy]
      refine List.pairwise_cons.mpr ⟨?_, pairwise_insertSorted key x ys hys⟩
      intro b hb
      rcases (mem_insertSorted _ x b ys).mp hb with rfl | hb
      · exact le_of_lt (lt_of_not_le (fun hc => hxy (decide_eq_true hc)))
      · exact hy b hb

/-- Sortedness of the keyed stable sort: the output is weakly ascending in
the key. -/
theorem sortByKey_pairwise {α : Type} (key : α → ℚ) :
    ∀ l : List α, List.Pairwise (fun a b => key a ≤ key b) (sortByKey key l)
  | [] => List.Pairwise.nil
  | x :: xs => pairwise_insertSorted key x _ (sortByKey_pairwise key xs)

/-- Stability of the insertion step: restricted to any one key value, the
insertion behaves as consing to the front, because every element the
inserted one passes over has a strictly smaller key. -/
theorem insertSorted_filter_key {α : Type} (key : α → ℚ) (q : ℚ) (x : α) :
    ∀ l : List α,
      (insertSorted (fun a b => decide (key a ≤ key b)) x l).filter
          (fun a => decide (key a = q))
        = (x :: l).filter (fun a => decide (key a = q))
  | [] => rfl
  | y :: ys => by
    by_cases hxy : decide (key x ≤ key y) = true
    · simp [insertSorted, hxy]
    · have hlt : key y < key x := lt_of_not_le (fun hc => hxy (decide_eq_true hc))
      have hrec := insertSorted_filter_key key q x ys
      simp only [insertSorted, if_neg hxy, List.filter_cons] at *
      by_cases hx : decide (key x = q) = true
      · have hy : decide (key y = q) = false := by
          rw [decide_eq_false_iff_not]
          intro hyq
          have hxq := of_decide_eq_true hx
          rw [hxq, hyq] at hlt
          exact lt_irrefl q hlt
        simp only [hx, hy, if_true, Bool.false_eq_true, if_false] at *
        rw [hrec]
      · by_cases hy : decide (key y = q) = true
        · simp only [hx, hy, if_true, Bool.false_eq_true, if_false] at *
          rw [hrec]
        · simp only [hx, hy, Bool.false_eq_true, if_false] at *
          rw [hrec]

/-- Stability of the keyed stable sort: restricted to any one key value the
sort is the identity, so entries with equal keys keep their original
relative order. -/
theorem sortByKey_stable {α : Type} (key : α → ℚ) (q : ℚ) :
    ∀ l : List α,
      (sortByKey key l).filter (fun a => decide (key a = q))
        = l.filter (fun a => decide (key a = q))
  | [] => rfl
  | x :: xs => by
    have h := insertSorted_filter_key key q x (sortByKey key xs)
    have ih := sortByKey_stable key q xs
    show (insertSorted (fun a b => decide (key a ≤ key b)) x
        (sortByKey key xs)).filter (fun a => decide (key a = q))
      = (x :: xs).filter (fun a => decide (key a = q))
    rw [h, List.filter_cons, List.filter_cons, ih]

/-- Throwing map on a list where every callback succeeds pointwise. -/
theorem mapThrow_ok {α β : Type} {f : α → Except TgError β} {g : α → β} :
    ∀ l : List α, (∀ a ∈ l, f a = Except.ok (g a)) →
      mapThrow f l = Except.ok (l.map g)
  | [], _ => rfl
  | a :: as, h => by
    have ha := h a (List.mem_cons_self a as)
    have hrest := mapThrow_ok as (fun b hb => h b (List.mem_cons_of_mem a hb))
    simp [mapThrow, ha, hrest]

/-- Nonemptiness transfers through the keyed stable sort. -/
theorem sortByKey_ne_nil {α : Type} (key : α → ℚ) (l : List α) (h : l ≠ []) :
    sortByKey key l ≠ [] := by
  intro hc
  apply h
  have := length_sortStable (fun a b => decide (key a ≤ key b)) l
  rw [show sortStable (fun a b => decide (key a ≤ key b)) l = sortByKey key l from rfl,
    hc] at this
  exact List.length_eq_zero.mp this.symm

/-- Per-group selection step on a nonempty group: the kept trips are the
best two and the representative score is the best trip score. -/
theorem routingSelectGroup_eq_ok (g : TripGroup) (h : g.trips ≠ []) :
    routingSelectGroup g = Except.ok (decorateGroup (bestTwoTrips g)) := by
  cases hs : sortTripsByScore g.trips with
  | nil => exact absurd hs (sortByKey_ne_nil _ g.trips h)
  | cons t ts =>
    show (match sortTripsByScore g.trips with
      | [] => Except.error TgError.typeError
      | t :: ts => Except.ok (SelGroup.mk ((t :: ts).take 2) t.weightedScore))
      = Except.ok (decorateGroup (bestTwoTrips g))
    rw [hs]
    have hbest : bestTwoTrips g = (t :: ts).take 2 := by
      rw [bestTwoTrips, hs]
    have hscore : repScore ((t :: ts).take 2) = t.weightedScore := by
      rw [List.take_succ_cons]
      rfl
    rw [decorateGroup, hbest, hscore]

/-- Throwing map over the selection step hits the TypeError as soon as some
group has no trips. -/
theorem mapThrow_routingSelect_error :
    ∀ gs : List TripGroup, (∃ g ∈ gs, g.trips = []) →
      mapThrow routingSelectGroup gs = Except.error TgError.typeError
  | [], h => by simp at h
  | g0 :: rest, h => by
    by_cases h0 : g0.trips = []
    · have : routingSelectGroup g0 = Except.error TgError.typeError := by
        rw [routingSelectGroup, h0]
        rfl
      simp [mapThrow, this]
    · rcases h with ⟨g, hg, hge⟩
      rcases List.mem_cons.mp hg with rfl | hgrest
      · exact absurd hge h0
      · have hok := routingSelectGroup_eq_ok g0 h0
        have hrest := mapThrow_routingSelect_error rest ⟨g, hgrest, hge⟩
        simp [mapThrow, hok, hrest]

/-- Claim C1 theorem.  For a successful routing response the formatted
output is exactly the specified pipeline: stably sort each group ascending
by weighted score, keep at most the first two trips per group, rank the
groups ascending by their best trip score with a stable sort, keep the
first limit groups, and flatten in group order with within-group order
preserved, each kept trip rendered by the trip formatter. -/
theorem routing_selectsSpecPipeline (tz : Timezone)
    (templates : Option (List SegmentTemplate)) (groups : List TripGroup)
    (limit : Nat) (h : ∀ g ∈ groups, g.trips ≠ []) :
    handleRoutingCore tz
        { error := none, groups := some groups, segmentTemplates := templates }
        limit
      = Except.ok ((specSelectTrips groups limit).map (formatTrip tz templates)) := by
  have hmap : mapThrow routingSelectGroup groups
      = Except.ok (groups.map (fun g => decorateGroup (bestTwoTrips g))) :=
    mapThrow_ok groups (fun g hg => routingSelectGroup_eq_ok g (h g hg))
  show handleRoutingFormat tz
      { error := none, groups := some groups, segmentTemplates := templates }
      limit = _
  show (match mapThrow routingSelectGroup groups with
    | Except.error e => Except.error e
    | Except.ok sel =>
      Except.ok (((sortSelGroups sel).take limit).flatMap
        (fun g => g.trips.map (formatTrip tz templates)))) = _
  rw [hmap]
  show Except.ok
      (((sortSelGroups (groups.map (fun g => decorateGroup (bestTwoTrips g)))).take
          limit).flatMap (fun g => g.trips.map (formatTrip tz templates)))
    = _
  have hsort : sortSelGroups (groups.map (fun g => decorateGroup (bestTwoTrips g)))
      = (sortByKey (fun g => repScore (bestTwoTrips g)) groups).map
          (fun g => decorateGroup (bestTwoTrips g)) := by
    exact sortByKey_map (fun g => g.score) (fun g => decorateGroup (bestTwoTrips g)) groups
  rw [hsort, ← List.map_take, List.flatMap_map]
  have hspec : specSelectTrips groups limit
      = ((sortByKey (fun g => repScore (bestTwoTrips g)) groups).take limit).flatMap
          bestTwoTrips := by
    show ((sortByKey repScore (groups.map bestTwoTrips)).take limit).flatten = _
    rw [sortByKey_map repScore bestTwoTrips groups, ← List.map_take]
    induction ((sortByKey (fun g => repScore (bestTwoTrips g)) groups).take limit) with
    | nil => rfl
    | cons a as ih => simp [List.flatMap_cons, ih]
  rw [hspec, List.map_flatMap]
  rfl

/-- Witness for the selection claim at its own example: three groups with
representative scores five, one and three and a limit of two yield exactly
the trips of the groups scoring one and three, in that order, each group
contributing its two lowest-scoring trips in ascending score order. -/
theorem routing_selectsSpecPipeline_witness :
    (∀ g ∈ exGroups, g.trips ≠ []) ∧
    (handleRoutingCore utcTimezone
          { error := none, groups := some exGroups, segmentTemplates := none }
          2).map (List.map (fun t => (t.id, t.score)))
      = Except.ok [("b2", (1 : ℚ)), ("b3", 2), ("c1", 3), ("c2", 4)] :=
  ⟨by decide, by
    rw [routing_selectsSpecPipeline utcTimezone none exGroups 2 (by decide)]
    decide⟩

/-- Claim C5 counterexample.  A routing response whose first trip group has
no trips makes the whole formatting step fail with the TypeError raised
when the code reads the weightedScore of the first element of an empty
sorted array; the group is not skipped and no output is produced from the
remaining, well-formed group. -/
theorem routing_emptyGroup_counterexample :
    handleRoutingCore utcTimezone exEmptyGroupResponse 3
      = Except.error TgError.typeError := by
  decide

/-- Claim C5 amended theorem.  Whenever the upstream error field is falsy
and some group in the response has an empty trips list, the routing
formatter aborts the whole operation with a TypeError instead of skipping
the group. -/
theorem routing_emptyGroupAborts (tz : Timezone) (limit : Nat)
    (err : Option String) (tmpl : Option (List SegmentTemplate))
    (gs : List TripGroup) (herr : strTruthy err = false)
    (hempty : ∃ g ∈ gs, g.trips = []) :
    handleRoutingCore tz
        { error := err, groups := some gs, segmentTemplates := tmpl } limit
      = Except.error TgError.typeError := by
  have hfmt : handleRoutingFormat tz
      { error := err, groups := some gs, segmentTemplates := tmpl } limit
      = Except.error TgError.typeError := by
    show (match mapThrow routingSelectGroup gs with
      | Except.error e => Except.error e
      | Except.ok sel =>
        Except.ok (((sortSelGroups sel).take limit).flatMap
          (fun g => g.trips.map (formatTrip tz tmpl)))) = _
    rw [mapThrow_routingSelect_error gs hempty]
  cases err with
  | none => exact hfmt
  | some e =>
    have he : e = "" := by simpa [strTruthy] using herr
    subst he
    exact hfmt

/-- Witness for the amended empty-group claim at a concrete response. -/
theorem routing_emptyGroupAborts_witness :
    strTruthy none = false
    ∧ (∃ g ∈ [TripGroup.mk [], TripGroup.mk [mkTrip "x" 1]], g.trips = [])
    ∧ handleRoutingCore utcTimezone
        { error := none,
          groups := some [TripGroup.mk [], TripGroup.mk [mkTrip "x" 1]],
          segmentTemplates := none } 3
      = Except.error TgError.typeError :=
  ⟨rfl, by decide,
    routing_emptyGroupAborts utcTimezone 3 none none
      [TripGroup.mk [], TripGroup.mk [mkTrip "x" 1]] rfl (by decide)⟩

/-- Claim C6 theorem.  A non-empty upstream error field makes each of the
four tool operations fail as a whole with an error carrying the upstream
message; no formatting is attempted and no partial result list exists, the
result being the error value itself. -/
theorem upstreamError_abortsAll :
    (∀ (tz : Timezone) (data : RoutingResponse) (limit : Nat) (e : String),
      data.error = some e → e ≠ "" →
        handleRoutingCore tz data limit
          = Except.error (TgError.upstream ("Routing failed: " ++ e)))
    ∧ (∀ (data : SaveTripResponse) (e : String),
      data.error = some e → e ≠ "" →
        handleSaveTripCore data
          = Except.error (TgError.upstream ("Routing failed: " ++ e)))
    ∧ (∀ (data : LocationsResponse) (e : String),
      data.error = some e → e ≠ "" →
        handleLocationsCore data
          = Except.error (TgError.upstream ("Locations search failed: " ++ e)))
    ∧ (∀ (data : DeparturesResponse) (e : String),
      data.error = some e → e ≠ "" →
        handleDeparturesCore data
          = Except.error (TgError.upstream ("Departures search failed: " ++ e))) := by
  refine ⟨?_, ?_, ?_, ?_⟩
  · intro tz data limit e he hne
    cases data
    cases he
    simp [handleRoutingCore, hne]
  · intro data e he hne
    cases data
    cases he
    simp [handleSaveTripCore, hne]
  · intro data e he hne
    cases data
    cases he
    simp [handleLocationsCore, hne]
  · intro data e he hne
    cases data
    cases he
    simp [handleDeparturesCore, hne]

/-- Witness for the upstream error claim: each operation applied to a
response carrying the error message boom. -/
theorem upstreamError_abortsAll_witness :
    handleRoutingCore utcTimezone { error := some "boom" } 3
      = Except.error (TgError.upstream ("Routing failed: " ++ "boom"))
    ∧ handleSaveTripCore { error := some "boom", url := "u" }
      = Except.error (TgError.upstream ("Routing failed: " ++ "boom"))
    ∧ handleLocationsCore { error := some "boom" }
      = Except.error (TgError.upstream ("Locations search failed: " ++ "boom"))
    ∧ handleDeparturesCore { error := some "boom" }
      = Except.error (TgError.upstream ("Departures search failed: " ++ "boom")) :=
  ⟨upstreamError_abortsAll.1 utcTimezone _ 3 "boom" rfl (by decide),
   upstreamError_abortsAll.2.1 _ "boom" rfl (by decide),
   upstreamError_abortsAll.2.2.1 _ "boom" rfl (by decide),
   upstreamError_abortsAll.2.2.2 _ "boom" rfl (by decide)⟩


unseal Rat.mul Rat.add Rat.sub Rat.inv in
/-- Claim C2 counterexample.  A region whose encoded polygon decodes to a
single vertex does not contain the origin coordinate, yet the resolver
propagates the ring-size validation error instead of returning none. -/
theorem regionResolver_error_counterexample :
    regionContains (Coordinate.mk 0 0) exLineRegion = false
    ∧ getRegionForCoordinate (Coordinate.mk 0 0) [exLineRegion]
      = Except.error GeoError.invalidRing := by
  exact ⟨by decide, by decide⟩

/-- Claim C2 amended theorem.  Provided every containment test on the list
succeeds, the resolver returns the first region in list order whose decoded
polygon contains the coordinate, and none, not an error, when no region
contains it; in the none case the routing caller falls back to the UTC
timezone. -/
theorem regionResolver_firstMatch (c : Coordinate) (regions : List Region)
    (h : ∀ r ∈ regions, ∃ b, coordinateInPolygon c r.polygon = Except.ok b) :
    getRegionForCoordinate c regions
      = Except.ok (regions.find? (regionContains c))
    ∧ ((∀ r ∈ regions, regionContains c r = false) →
      routingDisplayTimezoneName c regions = Except.ok "UTC") := by
  have hmain : getRegionForCoordinate c regions
      = Except.ok (regions.find? (regionContains c)) := by
    induction regions with
    | nil => rfl
    | cons r rs ih =>
      rcases h r (List.mem_cons_self r rs) with ⟨b, hb⟩
      have hrc : regionContains c r = b := by
        rw [regionContains, hb]
      cases b with
      | true =>
        show (match coordinateInPolygon c r.polygon with
          | Except.error e => Except.error e
          | Except.ok true => Except.ok (some r)
          | Except.ok false => getRegionForCoordinate c rs) = _
        rw [hb, List.find?_cons_of_pos _ hrc]
      | false =>
        show (match coordinateInPolygon c r.polygon with
          | Except.error e => Except.error e
          | Except.ok true => Except.ok (some r)
          | Except.ok false => getRegionForCoordinate c rs) = _
        rw [hb, List.find?_cons_of_neg _ (by rw [hrc]; exact Bool.false_ne_true)]
        exact ih (fun s hs => h s (List.mem_cons_of_mem r hs))
  refine ⟨hmain, fun hnone => ?_⟩
  rw [routingDisplayTimezoneName, hmain, List.find?_eq_none.mpr
    (fun r hr hc => by rw [hnone r hr] at hc; exact Bool.false_ne_true hc)]
  rfl

unseal Rat.mul Rat.add Rat.sub Rat.inv in
/-- Witness for the region resolver claim: the canonical triangle polyline
contains the coordinate (40, -121), so the resolver picks that region as
the first match. -/
theorem regionResolver_firstMatch_witness :
    (∀ r ∈ [exTriangleRegion], ∃ b,
      coordinateInPolygon exInsideTriangle r.polygon = Except.ok b)
    ∧ getRegionForCoordinate exInsideTriangle [exTriangleRegion]
      = Except.ok (some exTriangleRegion) :=
  ⟨by decide,
    (regionResolver_firstMatch exInsideTriangle [exTriangleRegion] (by decide)).1.trans
      (by decide)⟩

/-- Claim C9 theorem.  When a non-empty departureTime is given, only the
departAfter parameter is sent regardless of any arrivalTime, and in
general the arriveBefore parameter can only appear when the departureTime
is absent in the JavaScript truthiness sense (missing or the empty
string). -/
theorem departureTime_priority :
    (∀ (fmt : String → Int) (d : String) (a : Option String), d ≠ "" →
      routingTimeParams fmt (some d) a = [("departAfter", fmt d)])
    ∧ (∀ (fmt : String → Int) (dep arr : Option String) (v : Int),
      ("arriveBefore", v) ∈ routingTimeParams fmt dep arr →
        strTruthy dep = false) := by
  constructor
  · intro fmt d a hd
    simp [routingTimeParams, strTruthy, hd]
  · intro fmt dep arr v hmem
    by_cases hdep : strTruthy dep = true
    · rcases dep with _ | d
      · simp [strTruthy] at hdep
      · have hd : d ≠ "" := by simpa [strTruthy] using hdep
        rw [routingTimeParams, if_pos (by simpa [strTruthy] using hd)] at hmem
        simp at hmem
    · exact eq_false_of_ne_true hdep

/-- Witness for the time priority claim: with both times given, only the
departAfter parameter is produced. -/
theorem departureTime_priority_witness :
    "2025-01-01T10:00:00" ≠ ""
    ∧ routingTimeParams (fun _ => 0) (some "2025-01-01T10:00:00")
        (some "2025-01-01T12:00:00")
      = [("departAfter", 0)] :=
  ⟨by decide,
    departureTime_priority.1 (fun _ => 0) "2025-01-01T10:00:00"
      (some "2025-01-01T12:00:00") (by decide)⟩

/-- Claim C10 theorem.  Every encoded polygon string that decodes to an
empty vertex sequence makes coordinateInPolygon throw the TypeError raised
by the closure check when it indexes the first element of the empty
coordinate array, for every input coordinate; the result is neither a
containment verdict nor a decode-specific error. -/
theorem emptyDecode_typeError (c : Coordinate) (s : String)
    (h : polylineDecode s = []) :
    coordinateInPolygon c s = Except.error GeoError.typeError := by
  rw [coordinateInPolygon, coordinateInPolygonPts, h]
  rfl

/-- Witness for the empty decode claim: the empty string decodes to no
vertices and the containment test throws. -/
theorem emptyDecode_typeError_witness :
    polylineDecode "" = []
    ∧ coordinateInPolygon (Coordinate.mk 0 0) ""
      = Except.error GeoError.typeError :=
  ⟨rfl, emptyDecode_typeError (Coordinate.mk 0 0) "" rfl⟩

/-- Truncating division toward zero agrees with flooring division on
non-negative dividends. -/
theorem tdiv_eq_fdiv_of_nonneg (a : Int) (h : 0 ≤ a) :
    a.tdiv 60 = a.fdiv 60 :=
  (Int.fdiv_eq_tdiv h (by decide)).symm

/-- Claim C4 theorem.  Every formatted segment carries the duration in
whole minutes obtained from (endTime - startTime) / 60, and every
formatted trip carries the total duration obtained the same way from
(arrive - depart); on the non-negative spans expected here the truncation
toward zero stated by the specification and the flooring Math.floor of the
code agree, so both descriptions hold of the output. -/
theorem segmentDuration_truncation (templates : Option (List SegmentTemplate))
    (seg : SegmentReference) (tz : Timezone) (t : Trip)
    (hseg : 0 ≤ seg.endTime - seg.startTime)
    (htrip : 0 ≤ t.arrive - t.depart) :
    (formatSegment templates seg).duration = (seg.endTime - seg.startTime).tdiv 60
    ∧ (formatTrip tz templates t).totalDuration = (t.arrive - t.depart).tdiv 60
    ∧ (seg.endTime - seg.startTime).tdiv 60 = (seg.endTime - seg.startTime).fdiv 60
    ∧ (t.arrive - t.depart).tdiv 60 = (t.arrive - t.depart).fdiv 60 := by
  refine ⟨?_, ?_, tdiv_eq_fdiv_of_nonneg _ hseg, tdiv_eq_fdiv_of_nonneg _ htrip⟩
  · show Int.fdiv (seg.endTime - seg.startTime) 60 = _
    exact (tdiv_eq_fdiv_of_nonneg _ hseg).symm
  · show Int.fdiv (t.arrive - t.depart) 60 = _
    exact (tdiv_eq_fdiv_of_nonneg _ htrip).symm

/-- Witness for the duration claim: a 125 second segment and a 3725 second
trip yield two and sixty-two whole minutes. -/
theorem segmentDuration_truncation_witness :
    (0 : Int) ≤ 125 - 0
    ∧ (0 : Int) ≤ 3725 - 0
    ∧ (formatSegment none
        { segmentTemplateHashCode := 1, startTime := 0, endTime := 125 }).duration
      = (125 - 0 : Int).tdiv 60
    ∧ (formatTrip utcTimezone none
        { id := "w", arrive := 3725, depart := 0, weightedScore := 1 }).totalDuration
      = (3725 - 0 : Int).tdiv 60 :=
  ⟨by decide, by decide,
    (segmentDuration_truncation none
      { segmentTemplateHashCode := 1, startTime := 0, endTime := 125 }
      utcTimezone { id := "w", arrive := 3725, depart := 0, weightedScore := 1 }
      (by decide) (by decide)).1,
    (segmentDuration_truncation none
      { segmentTemplateHashCode := 1, startTime := 0, endTime := 125 }
      utcTimezone { id := "w", arrive := 3725, depart := 0, weightedScore := 1 }
      (by decide) (by decide)).2.1⟩

/-- Claim C8 counterexample.  The departures formatter of the current
revision produces the same entries whether or not the stops list contains
the embarkation stop code: the human-readable stop name (Central Station in
this response) appears nowhere in the output, whose entries carry no stop
name field at all. -/
theorem departures_stopName_counterexample :
    handleDeparturesCore exDeparturesWithStops
      = handleDeparturesCore exDeparturesNoStops
    ∧ handleDeparturesCore exDeparturesWithStops
      = Except.ok [{ scheduledDeparture := "2025-10-04T18:00:00.000Z",
                     realTimeDeparture := none,
                     realTime := false,
                     service := { id := "svc-1", name := none,
                                  number := some "T1", direction := none,
                                  operator := none, mode := none },
                     wheelchairAccessible := none,
                     vehicle := none }] :=
  ⟨rfl, by decide⟩

/-- Claim C8 amended theorem.  In the current revision the per-departure
stop lookup is computed and discarded: the formatted output is invariant
under any change of the stops list, so a stop code present in the
embarkation stops but absent from the stops list still yields its entries,
identical to when it is present, and no entry ever carries a stop name. -/
theorem departures_stops_unused :
    ∀ (err : Option String) (es : Option (List EmbarkationStop))
      (s1 s2 : Option (List Location)),
      handleDeparturesCore { error := err, embarkationStops := es, stops := s1 }
        = handleDeparturesCore { error := err, embarkationStops := es, stops := s2 } := by
  intro err es s1 s2
  rfl

/-- Claim C3 theorem.  Evaluation of the round-trip at the failing input:
the naive local timestamp 2025-10-04T20:00:00 in the Sydney zone falls in
the window before the daylight-saving start where zonedTimeToUtc measures
the zone offset at the wrong instant, so formatting the produced instant
back in the zone renders 19:00, not the original 20:00 digits.  The last
two conjuncts show the round-trip does reproduce the digits and offsets on
a mid-winter standard-time date and a mid-summer daylight-saving date. -/
theorem zonedTimeToUtc_dstWindow_bug :
    zonedTimeToUtc australiaSydney2025 (civilToSeconds 2025 10 4 20 0 0)
      = civilToSeconds 2025 10 4 9 0 0
    ∧ toISOStringInTimezone australiaSydney2025
        (zonedTimeToUtc australiaSydney2025 (civilToSeconds 2025 10 4 20 0 0))
      = "2025-10-04T19:00:00GMT+10:00"
    ∧ wallSecondsInZone australiaSydney2025
        (zonedTimeToUtc australiaSydney2025 (civilToSeconds 2025 10 4 20 0 0))
      ≠ civilToSeconds 2025 10 4 20 0 0
    ∧ toISOStringInTimezone australiaSydney2025
        (zonedTimeToUtc australiaSydney2025 (civilToSeconds 2025 7 18 19 0 0))
      = "2025-07-18T19:00:00GMT+10:00"
    ∧ toISOStringInTimezone australiaSydney2025
        (zonedTimeToUtc australiaSydney2025 (civilToSeconds 2025 12 1 12 0 0))
      = "2025-12-01T12:00:00GMT+11:00" :=
  ⟨by decide, by decide, by decide, by decide, by decide⟩

/-- Characterization of the inRing loop: the result is true when some edge
registers a boundary hit, otherwise the accumulator xor the total crossing
parity. -/
theorem inRingGo_characterize (pt : GeoPoint) :
    ∀ (es : List (GeoPoint × GeoPoint)) (acc : Bool),
      inRingGo pt es acc
        = (boundaryHit pt es || Bool.xor acc (crossParity pt es))
  | [], acc => by simp [inRingGo, boundaryHit, crossParity]
  | e :: es, acc => by
    by_cases hb : onBoundary pt e.1 e.2 = true
    · simp [inRingGo, hb, boundaryHit]
    · simp only [inRingGo, if_neg hb, inRingGo_characterize pt es,
        boundaryHit, crossParity, List.any_cons, List.foldr_cons]
      rw [eq_false_of_ne_true hb]
      cases acc <;> cases crossesRay pt e.1 e.2 <;>
        cases es.any (fun e => onBoundary pt e.1 e.2) <;>
        cases es.foldr (fun e b => Bool.xor (crossesRay pt e.1 e.2) b) false <;> rfl

/-- Crossing parity of an appended edge list splits as an exclusive or. -/
theorem crossParity_append (pt : GeoPoint)
    (es fs : List (GeoPoint × GeoPoint)) :
    crossParity pt (es ++ fs) = Bool.xor (crossParity pt es) (crossParity pt fs) := by
  induction es with
  | nil => simp [crossParity]
  | cons e es ih =>
    simp only [crossParity, List.foldr_cons, List.cons_append] at *
    rw [ih]
    cases crossesRay pt e.1 e.2 <;>
      cases es.foldr (fun e b => Bool.xor (crossesRay pt e.1 e.2) b) false <;>
      cases fs.foldr (fun e b => Bool.xor (crossesRay pt e.1 e.2) b) false <;> rfl

/-- Degenerate edges never register a ray crossing. -/
theorem crossesRay_self (pt p : GeoPoint) : crossesRay pt p p = false := by
  simp [crossesRay]

/-- Boundary hit on an edge whose current vertex is the point itself. -/
theorem onBoundary_of_eq_snd (pt vj vi : GeoPoint) (h : pt = vi) :
    onBoundary pt vj vi = true := by
  subst h
  simp only [onBoundary, decide_eq_true_eq]
  refine ⟨by ring, by simp, by simp⟩

/-- A boundary hit on a degenerate edge forces the point to be that vertex,
so any edge ending at the vertex also registers the hit. -/
theorem onBoundary_degenerate (pt p v : GeoPoint)
    (h : onBoundary pt p p = true) : onBoundary pt v p = true := by
  have hpt : pt = p := by
    simp only [onBoundary, decide_eq_true_eq] at h
    rcases h with ⟨_, hx, hy⟩
    have hx0 : p.x - pt.x = 0 := by nlinarith
    have hy0 : p.y - pt.y = 0 := by nlinarith
    cases pt
    cases p
    simp only [GeoPoint.mk.injEq]
    constructor
    · linarith [sub_eq_zero.mp hx0]
    · linarith [sub_eq_zero.mp hy0]
  exact onBoundary_of_eq_snd pt v p hpt

/-- Boundary disjunct over an empty edge list. -/
theorem boundaryHit_nil (pt : GeoPoint) : boundaryHit pt [] = false := rfl

/-- Boundary disjunct over a cons edge list. -/
theorem boundaryHit_cons (pt : GeoPoint) (e : GeoPoint × GeoPoint)
    (es : List (GeoPoint × GeoPoint)) :
    boundaryHit pt (e :: es) = (onBoundary pt e.1 e.2 || boundaryHit pt es) := by
  simp [boundaryHit]

/-- Boundary disjunct over an appended edge list. -/
theorem boundaryHit_append (pt : GeoPoint)
    (es fs : List (GeoPoint × GeoPoint)) :
    boundaryHit pt (es ++ fs) = (boundaryHit pt es || boundaryHit pt fs) := by
  simp [boundaryHit, List.any_append]

/-- Crossing parity of a cons edge list. -/
theorem crossParity_cons (pt : GeoPoint) (e : GeoPoint × GeoPoint)
    (es : List (GeoPoint × GeoPoint)) :
    crossParity pt (e :: es)
      = Bool.xor (crossesRay pt e.1 e.2) (crossParity pt es) := rfl

/-- Crossing parity of a one-edge list. -/
theorem crossParity_singleton (pt : GeoPoint) (e : GeoPoint × GeoPoint) :
    crossParity pt [e] = crossesRay pt e.1 e.2 := by
  simp [crossParity]

/-- Ring iteration is unchanged by appending a duplicate of the first
vertex to an already-closed ring of at least two vertices: the turf
deduplication drops one trailing copy, and the leftover degenerate edge
neither crosses the ray nor introduces a boundary hit that the closing
edge would not also register. -/
theorem inRing_closed_append (pt h : GeoPoint) (t : List GeoPoint)
    (ht : t ≠ []) (hlast : (h :: t).getLast? = some h) :
    inRing pt ((h :: t) ++ [h]) = inRing pt (h :: t) := by
  have hCne : (h :: t) ≠ [] := List.cons_ne_nil h t
  have hgl : (h :: t).getLast hCne = h := by
    have hq := List.getLast?_eq_getLast (h :: t) hCne
    rw [hlast] at hq
    exact (Option.some.inj hq).symm
  have hd2 : dedupRing ((h :: t) ++ [h]) = h :: t := by
    show (match (h :: t) ++ [h], ((h :: t) ++ [h]).getLast? with
      | p :: _, some l =>
        if p = l then ((h :: t) ++ [h]).dropLast else (h :: t) ++ [h]
      | _, _ => (h :: t) ++ [h]) = h :: t
    rw [List.getLast?_concat]
    show (if h = h then ((h :: t) ++ [h]).dropLast else (h :: t) ++ [h]) = h :: t
    rw [if_pos rfl, List.dropLast_concat]
  have hd1 : dedupRing (h :: t) = (h :: t).dropLast := by
    show (match h :: t, (h :: t).getLast? with
      | p :: _, some l => if p = l then (h :: t).dropLast else h :: t
      | _, _ => h :: t) = (h :: t).dropLast
    rw [hlast]
    show (if h = h then (h :: t).dropLast else h :: t) = (h :: t).dropLast
    rw [if_pos rfl]
  have hsne : (h :: t).dropLast ≠ [] := by
    intro hc
    have hl := List.length_dropLast (h :: t)
    rw [hc] at hl
    simp at hl
    exact ht (List.length_eq_zero.mp hl.symm)
  have hsplit : (h :: t).dropLast ++ [h] = h :: t := by
    have hq := List.dropLast_append_getLast hCne
    rw [hgl] at hq
    exact hq
  rw [inRing, inRing, hd1, hd2]
  rcases hs : (h :: t).dropLast with _ | ⟨m, ms⟩
  · exact absurd hs hsne
  · have hmh : m = h := by
      have hq : (h :: t).head? = some h := List.head?_cons
      rw [← hsplit, hs] at hq
      simp at hq
      exact hq
    subst hmh
    rw [hs] at hsplit
    rw [← hsplit]
    have hmsne : (m :: ms) ≠ [] := List.cons_ne_nil m ms
    have hlenu : ((m :: ms).dropLast).length = ms.length := by
      rw [List.length_dropLast]
      simp
    have hsplit2 : (m :: ms).dropLast ++ [(m :: ms).getLast hmsne] = m :: ms :=
      List.dropLast_append_getLast hmsne
    have he2 : ringEdges ((m :: ms) ++ [m]) = (m, m) :: (m :: ms).zip (ms ++ [m]) := by
      show (match ((m :: ms) ++ [m]).getLast? with
        | none => []
        | some l => (l :: ((m :: ms) ++ [m]).dropLast).zip ((m :: ms) ++ [m])) = _
      rw [List.getLast?_concat]
      show (m :: ((m :: ms) ++ [m]).dropLast).zip ((m :: ms) ++ [m]) = _
      rw [List.dropLast_concat, List.cons_append, List.zip_cons_cons]
    have he2i : (m :: ms).zip (ms ++ [m])
        = (m :: ms).dropLast.zip ms ++ [((m :: ms).getLast hmsne, m)] := by
      conv_lhs => rw [← hsplit2]
      rw [List.zip_append hlenu]
      simp
    have he1 : ringEdges (m :: ms)
        = ((m :: ms).getLast hmsne, m) :: (m :: ms).dropLast.zip ms := by
      show (match (m :: ms).getLast? with
        | none => []
        | some l => (l :: (m :: ms).dropLast).zip (m :: ms)) = _
      rw [List.getLast?_eq_getLast (m :: ms) hmsne]
      show ((m :: ms).getLast hmsne :: (m :: ms).dropLast).zip (m :: ms) = _
      rw [List.zip_cons_cons]
    rw [he2, he2i, he1]
    rw [inRingGo_characterize, inRingGo_characterize]
    simp only [boundaryHit_cons, boundaryHit_append, boundaryHit_nil,
      crossParity_cons, crossParity_append, crossParity_singleton,
      crossesRay_self]
    by_cases hdeg : onBoundary pt m m = true
    · have hcl : onBoundary pt ((m :: ms).getLast hmsne) m = true :=
        onBoundary_degenerate pt m ((m :: ms).getLast hmsne) hdeg
      simp [hdeg, hcl]
    · rw [eq_false_of_ne_true hdeg]
      cases onBoundary pt ((m :: ms).getLast hmsne) m <;>
        cases boundaryHit pt ((m :: ms).dropLast.zip ms) <;>
        cases crossParity pt ((m :: ms).dropLast.zip ms) <;>
        cases crossesRay pt ((m :: ms).getLast hmsne) m <;> rfl

/-- Synthesized closure is a no-op on a vertex list whose last vertex
already equals its first. -/
theorem closeRing_of_getLast_eq (p : GeoPoint) (ps : List GeoPoint)
    (hlast : (p :: ps).getLast? = some p) :
    closeRing (p :: ps) = Except.ok (p :: ps) := by
  have hq := List.getLast?_eq_getLast (p :: ps) (List.cons_ne_nil p ps)
  rw [hlast] at hq
  have hgl : (p :: ps).getLast (List.cons_ne_nil p ps) = p :=
    (Option.some.inj hq).symm
  show (if (p :: ps).getLast (List.cons_ne_nil p ps) = p
    then Except.ok (p :: ps) else Except.ok ((p :: ps) ++ [p])) = _
  rw [if_pos hgl]

/-- Synthesized closure appends the first vertex when the last vertex
differs from it. -/
theorem closeRing_of_getLast_ne (p : GeoPoint) (ps : List GeoPoint)
    (hlast : (p :: ps).getLast? ≠ some p) :
    closeRing (p :: ps) = Except.ok ((p :: ps) ++ [p]) := by
  have hgl : (p :: ps).getLast (List.cons_ne_nil p ps) ≠ p := by
    intro hc
    apply hlast
    rw [List.getLast?_eq_getLast (p :: ps) (List.cons_ne_nil p ps), hc]
  show (if (p :: ps).getLast (List.cons_ne_nil p ps) = p
    then Except.ok (p :: ps) else Except.ok ((p :: ps) ++ [p])) = _
  rw [if_neg hgl]

/-- Ring test on an unclosed vertex list: pre-closing by appending the
first vertex yields the very ring the closure step would synthesize, so
the two runs coincide. -/
theorem ringTest_unclosed_append (pt p : GeoPoint) (ps : List GeoPoint)
    (hne : (p :: ps).getLast? ≠ some p) :
    ringTest pt ((p :: ps) ++ [p]) = ringTest pt (p :: ps) := by
  have h1 : closeRing (p :: ps) = Except.ok ((p :: ps) ++ [p]) :=
    closeRing_of_getLast_ne p ps hne
  have h2 : closeRing ((p :: ps) ++ [p]) = Except.ok ((p :: ps) ++ [p]) := by
    rw [List.cons_append]
    exact closeRing_of_getLast_eq p (ps ++ [p])
      (by rw [← List.cons_append]; exact List.getLast?_concat _)
  show (match closeRing ((p :: ps) ++ [p]) with
    | Except.error e => Except.error e
    | Except.ok ring =>
      if ring.length < 4 then Except.error GeoError.invalidRing
      else Except.ok (booleanPointInPolygon pt ring))
    = (match closeRing (p :: ps) with
    | Except.error e => Except.error e
    | Except.ok ring =>
      if ring.length < 4 then Except.error GeoError.invalidRing
      else Except.ok (booleanPointInPolygon pt ring))
  rw [h1, h2]

/-- Ring test on an already-closed vertex list of at least four vertices:
appending another duplicate of the first vertex passes the same size
validation and leaves the iteration result unchanged. -/
theorem ringTest_closed_append (pt p : GeoPoint) (ps : List GeoPoint)
    (hlast : (p :: ps).getLast? = some p) (hlen : 4 ≤ (p :: ps).length) :
    ringTest pt ((p :: ps) ++ [p]) = ringTest pt (p :: ps) := by
  have h1 : closeRing (p :: ps) = Except.ok (p :: ps) :=
    closeRing_of_getLast_eq p ps hlast
  have h2 : closeRing ((p :: ps) ++ [p]) = Except.ok ((p :: ps) ++ [p]) := by
    rw [List.cons_append]
    exact closeRing_of_getLast_eq p (ps ++ [p])
      (by rw [← List.cons_append]; exact List.getLast?_concat _)
  show (match closeRing ((p :: ps) ++ [p]) with
    | Except.error e => Except.error e
    | Except.ok ring =>
      if ring.length < 4 then Except.error GeoError.invalidRing
      else Except.ok (booleanPointInPolygon pt ring))
    = (match closeRing (p :: ps) with
    | Except.error e => Except.error e
    | Except.ok ring =>
      if ring.length < 4 then Except.error GeoError.invalidRing
      else Except.ok (booleanPointInPolygon pt ring))
  rw [h1, h2]
  show (if ((p :: ps) ++ [p]).length < 4 then Except.error GeoError.invalidRing
      else Except.ok (booleanPointInPolygon pt ((p :: ps) ++ [p])))
    = (if (p :: ps).length < 4 then Except.error GeoError.invalidRing
      else Except.ok (booleanPointInPolygon pt (p :: ps)))
  have hlen2 : ¬ ((p :: ps) ++ [p]).length < 4 := by
    rw [List.length_append]
    omega
  have hlen1 : ¬ (p :: ps).length < 4 := by omega
  rw [if_neg hlen2, if_neg hlen1]
  have hps : ps ≠ [] := by
    intro hc
    rw [hc] at hlen
    simp at hlen
  show Except.ok (inRing pt ((p :: ps) ++ [p])) = Except.ok (inRing pt (p :: ps))
  rw [inRing_closed_append pt p ps hps hlast]

/-- Axis swapping is injective. -/
theorem swapToGeo_inj (a b : ℚ × ℚ) (h : swapToGeo a = swapToGeo b) : a = b := by
  cases a
  cases b
  simp only [swapToGeo, GeoPoint.mk.injEq] at h
  simp [h.1, h.2]

/-- Claim C7 amended theorem.  For every point and every polygon of at
least three vertices whose vertex sequence is either genuinely unclosed
(first and last vertices differ) or already closed with at least four
vertices, the containment test returns the same result whether or not the
caller repeats the first vertex at the end; synthesized closure of the
unclosed input produces the pre-closed ring, and on the closed input the
extra duplicate is absorbed by the ring deduplication and the degenerate
edge.  Only a three-vertex already-closed sequence escapes: unclosed it
fails the ring-size validation that its pre-closed form passes. -/
theorem coordinateInPolygon_preclose_invariant (c : Coordinate)
    (pts : List (ℚ × ℚ)) (h3 : 3 ≤ pts.length)
    (hcase : pts.head? ≠ pts.getLast? ∨ 4 ≤ pts.length) :
    coordinateInPolygonPts c (pts ++ pts.take 1) = coordinateInPolygonPts c pts := by
  rcases pts with _ | ⟨p, rest⟩
  · simp at h3
  · have htake : (p :: rest).take 1 = [p] := by simp
    rw [htake]
    simp only [coordinateInPolygonPts, List.map_append, List.map_cons,
      List.map_nil]
    by_cases hcl : (p :: rest).getLast? = some p
    · have hlen4 : 4 ≤ (p :: rest).length := by
        rcases hcase with hne | h4
        · exact absurd (by rw [List.head?_cons, hcl]) hne
        · exact h4
      have hcl2 : (swapToGeo p :: rest.map swapToGeo).getLast?
          = some (swapToGeo p) := by
        have hm := List.getLast?_map swapToGeo (p :: rest)
        rw [hcl] at hm
        simpa using hm
      have hlen4x : 4 ≤ (swapToGeo p :: rest.map swapToGeo).length := by
        simpa using hlen4
      exact ringTest_closed_append _ (swapToGeo p) (rest.map swapToGeo) hcl2 hlen4x
    · have hcl2 : (swapToGeo p :: rest.map swapToGeo).getLast?
          ≠ some (swapToGeo p) := by
        intro hc
        apply hcl
        have hm := List.getLast?_map swapToGeo (p :: rest)
        rw [List.map_cons, hc] at hm
        cases hq : (p :: rest).getLast? with
        | none =>
          rw [hq] at hm
          simp at hm
        | some q =>
          rw [hq] at hm
          have hmq : some (swapToGeo p) = some (swapToGeo q) := hm
          have hqp : q = p := (swapToGeo_inj p q (Option.some.inj hmq)).symm
          rw [hqp]
      exact ringTest_unclosed_append _ (swapToGeo p) (rest.map swapToGeo) hcl2

unseal Rat.mul Rat.add Rat.sub Rat.inv in
/-- Claim C7 counterexample.  A three-vertex polygon whose first and last
vertex coincide already: passed as given it forms a three-position ring
that the LinearRing validation rejects, while with the first vertex
explicitly repeated at the end it forms a four-position ring that passes
validation and evaluates to a containment verdict, so the two calls do not
return the same result. -/
theorem coordinateInPolygon_preclose_counterexample :
    (3 : Nat) ≤ ([((0 : ℚ), (0 : ℚ)), ((6 : ℚ), (0 : ℚ)), ((0 : ℚ), (0 : ℚ))] :
      List (ℚ × ℚ)).length
    ∧ coordinateInPolygonPts (Coordinate.mk 5 5)
        [((0 : ℚ), (0 : ℚ)), ((6 : ℚ), (0 : ℚ)), ((0 : ℚ), (0 : ℚ))]
      = Except.error GeoError.invalidRing
    ∧ coordinateInPolygonPts (Coordinate.mk 5 5)
        ([((0 : ℚ), (0 : ℚ)), ((6 : ℚ), (0 : ℚ)), ((0 : ℚ), (0 : ℚ))]
          ++ [((0 : ℚ), (0 : ℚ))])
      = Except.ok false :=
  ⟨by decide, by decide, by decide⟩

unseal Rat.mul Rat.add Rat.sub Rat.inv in
/-- Witness for the pre-closure claim on a genuinely unclosed triangle:
repeating the first vertex changes nothing and the contained point is
reported inside either way. -/
theorem coordinateInPolygon_preclose_invariant_witness :
    (3 : Nat) ≤ ([((0 : ℚ), (0 : ℚ)), ((6 : ℚ), (0 : ℚ)), ((0 : ℚ), (6 : ℚ))] :
      List (ℚ × ℚ)).length
    ∧ (([((0 : ℚ), (0 : ℚ)), ((6 : ℚ), (0 : ℚ)), ((0 : ℚ), (6 : ℚ))] :
        List (ℚ × ℚ)).head?
        ≠ [((0 : ℚ), (0 : ℚ)), ((6 : ℚ), (0 : ℚ)), ((0 : ℚ), (6 : ℚ))].getLast?
      ∨ 4 ≤ ([((0 : ℚ), (0 : ℚ)), ((6 : ℚ), (0 : ℚ)), ((0 : ℚ), (6 : ℚ))] :
        List (ℚ × ℚ)).length)
    ∧ coordinateInPolygonPts (Coordinate.mk 1 1)
        ([((0 : ℚ), (0 : ℚ)), ((6 : ℚ), (0 : ℚ)), ((0 : ℚ), (6 : ℚ))]
          ++ [((0 : ℚ), (0 : ℚ)), ((6 : ℚ), (0 : ℚ)), ((0 : ℚ), (6 : ℚ))].take 1)
      = coordinateInPolygonPts (Coordinate.mk 1 1)
          [((0 : ℚ), (0 : ℚ)), ((6 : ℚ), (0 : ℚ)), ((0 : ℚ), (6 : ℚ))]
    ∧ coordinateInPolygonPts (Coordinate.mk 1 1)
        [((0 : ℚ), (0 : ℚ)), ((6 : ℚ), (0 : ℚ)), ((0 : ℚ), (6 : ℚ))]
      = Except.ok true :=
  ⟨by decide, by decide,
    coordinateInPolygon_preclose_invariant (Coordinate.mk 1 1)
      [((0 : ℚ), (0 : ℚ)), ((6 : ℚ), (0 : ℚ)), ((0 : ℚ), (6 : ℚ))]
      (by decide) (by decide),
    by decide⟩
